import Mathlib

/-!
Shallow embedding of the streaming-recognition session core of
`res_speech_google.c` (an Asterisk speech engine backed by the Google Cloud
Speech-to-Text streaming gRPC API).  Pointer fields of `google_speech_t`
are modelled as `Option`/`Bool` presence values, the gRPC environment
(write/read outcomes, inbound responses, allocation outcomes) is passed
explicitly, and each engine callback becomes a pure function from session
state and environment to a return code and an updated state.
-/

/-- Asterisk speech lifecycle states used by this engine
(`AST_SPEECH_STATE_NOT_READY`, `READY`, `WAIT`, `DONE`). -/
inductive SpeechState where
  | notReady
  | ready
  | wait
  | done
deriving DecidableEq, Repr

/-- The engine-private session data `google_speech_t`.  C string fields are
`Option String` (`none` is a NULL pointer); the opaque gRPC handles
(`speech_stub`, `context`, `stream`, `channel_ptr`) are tracked as
presence flags. -/
structure GoogleSpeechData where
  name : Option String
  speech_stub : Bool
  context : Bool
  stream : Bool
  last_result : Option String
  service_account_key_path : Option String
  language_code : Option String
  sample_rate_hertz : Int
  model : Option String
  enable_automatic_punctuation : Bool
  channel_ptr : Bool
deriving DecidableEq, Repr

/-- The host `ast_speech` object as this engine sees it: the engine data
pointer `speech->data` and the lifecycle state mutated through
`ast_speech_change_state`. -/
structure Speech where
  data : Option GoogleSpeechData
  state : SpeechState
deriving DecidableEq, Repr

/-- `ast_strlen_zero`: the C string pointer is NULL or points at an empty
string. -/
def ast_strlen_zero : Option String → Bool
  | none => true
  | some s => s = ""

/-- One alternative of an inbound result: its transcript and the optional
confidence the service attached to it (`none` when absent). -/
structure SpeechAlternative where
  transcript : String
  confidence : Option Int
deriving DecidableEq, Repr

/-- One result entry of an inbound `StreamingRecognizeResponse`. -/
structure StreamingResult where
  alternatives : List SpeechAlternative
  is_final : Bool
  stability : Int
deriving DecidableEq, Repr

/-- An inbound streaming response: a batch of zero or more results. -/
structure StreamingResponse where
  results : List StreamingResult
deriving DecidableEq, Repr

/-- Audio encodings of `RecognitionConfig`; the engine only ever sends
`LINEAR16`. -/
inductive AudioEncoding where
  | linear16
deriving DecidableEq, Repr

/-- The `RecognitionConfig` fields populated by `google_recog_start`;
`model = none` means the field is left unset on the wire. -/
structure RecognitionConfig where
  encoding : AudioEncoding
  sample_rate_hertz : Int
  language_code : Option String
  model : Option String
  enable_automatic_punctuation : Bool
deriving DecidableEq, Repr

/-- The `StreamingRecognitionConfig` wrapper sent in the handshake frame. -/
structure StreamingConfig where
  config : RecognitionConfig
  interim_results : Bool
deriving DecidableEq, Repr

/-- An outbound `StreamingRecognizeRequest`: either the one-time
configuration frame or an audio-content frame. -/
inductive StreamFrame where
  | configFrame (cfg : StreamingConfig)
  | audioFrame (bytes : List Int)
deriving DecidableEq, Repr

/-- Outcome of the gRPC primitives during one `google_recog_write` call:
whether `Write` succeeds, and what `Read` yields (`none` means `Read`
returned false, i.e. the stream ended). -/
structure WriteEnv where
  writeOk : Bool
  readResp : Option StreamingResponse
deriving DecidableEq, Repr

/-- Outcome of the gRPC primitives during `google_recog_start`: whether the
stream handle is non-null and whether the configuration `Write` succeeds. -/
structure StartEnv where
  streamOk : Bool
  configWriteOk : Bool
deriving DecidableEq, Repr

/-- The caller-facing `ast_speech_result` fields this engine populates. -/
structure SpeechResult where
  text : String
  score : Int
deriving DecidableEq, Repr

/-- `google_recog_get`: if the slot passes the `ast_strlen_zero` check,
allocate the caller-facing result (`allocOk` is the `ast_calloc` outcome),
transfer the transcript and clear the slot, with the fixed placeholder
score 100. -/
def google_recog_get (sp : Speech) (allocOk : Bool) :
    Option SpeechResult × Speech :=
  match sp.data with
  | none => (none, sp)
  | some gs =>
    match gs.last_result with
    | none => (none, sp)
    | some t =>
      if t = "" then (none, sp)
      else if allocOk then
        (some { text := t, score := 100 },
         { sp with data := some { gs with last_result := none } })
      else (none, sp)

/-- `google_recog_write`: push one audio chunk as an outbound frame, then
attempt one read of the inbound direction; a batch with a first result and
a first alternative overwrites the slot, and a final result moves the
state to DONE.  A failed `Write` moves the state to NOT_READY and fails. -/
def google_recog_write (sp : Speech) (audio : List Int) (env : WriteEnv) :
    Int × Speech × List StreamFrame :=
  match sp.data with
  | none => (-1, sp, [])
  | some gs =>
    if gs.stream = false then (-1, sp, [])
    else if env.writeOk = false then
      (-1, { sp with state := SpeechState.notReady }, [])
    else
      let written := [StreamFrame.audioFrame audio]
      match env.readResp with
      | none => (0, sp, written)
      | some resp =>
        match resp.results with
        | [] => (0, sp, written)
        | r :: _ =>
          match r.alternatives with
          | [] => (0, sp, written)
          | alt :: _ =>
            let sp' := { sp with
              data := some { gs with last_result := some alt.transcript } }
            if r.is_final then
              (0, { sp' with state := SpeechState.done }, written)
            else (0, sp', written)

/-- The model field of the handshake config is sent iff the session model
string is non-null, non-empty and differs from the literal "default". -/
def modelFieldOf (model : Option String) : Option String :=
  match model with
  | none => none
  | some m => if m ≠ "" ∧ m ≠ "default" then some m else none

/-- `google_recog_start`: open the duplex stream and synchronously send the
one configuration frame; when the configuration write fails the stream is
finished, freed and the call fails, otherwise the state becomes READY. -/
def google_recog_start (sp : Speech) (env : StartEnv) :
    Int × Speech × List StreamFrame :=
  match sp.data with
  | none => (-1, sp, [])
  | some gs =>
    if gs.speech_stub = false ∨ gs.context = false then (-1, sp, [])
    else if env.streamOk = false then
      (-1, { sp with data := some { gs with stream := false } }, [])
    else if env.configWriteOk = false then
      (-1, { sp with data := some { gs with stream := false } }, [])
    else
      (0,
       { sp with
         data := some { gs with stream := true },
         state := SpeechState.ready },
       [StreamFrame.configFrame
         { config :=
             { encoding := AudioEncoding.linear16,
               sample_rate_hertz := gs.sample_rate_hertz,
               language_code := gs.language_code,
               model := modelFieldOf gs.model,
               enable_automatic_punctuation :=
                 gs.enable_automatic_punctuation },
           interim_results := true }])

/-- `google_recog_stop`: half-close via `WritesDone` (its outcome
`writesDoneOk` is only logged), then unconditionally move the state to
NOT_READY and return ok. -/
def google_recog_stop (sp : Speech) (_writesDoneOk : Bool) : Int × Speech :=
  match sp.data with
  | none => (0, sp)
  | some _ => (0, { sp with state := SpeechState.notReady })

/-- A sequence of consecutive `google_recog_stop` calls, collecting each
return code along with the final session state. -/
def stopMany (sp : Speech) : List Bool → List Int × Speech
  | [] => ([], sp)
  | e :: es =>
    let r := google_recog_stop sp e
    let rest := stopMany r.2 es
    (r.1 :: rest.1, rest.2)

/-- Which owned resources `google_recog_destroy` released, and whether the
blocking `Finish` was performed on an open stream. -/
structure DestroyEffects where
  finished_stream : Bool
  freed_stream : Bool
  freed_context : Bool
  freed_stub : Bool
  freed_name : Bool
  freed_last_result : Bool
  freed_key_path : Bool
  freed_language_code : Bool
  freed_model : Bool
  freed_channel : Bool
  freed_struct : Bool
deriving DecidableEq, Repr

/-- The empty effect record: nothing was released. -/
def noEffects : DestroyEffects :=
  { finished_stream := false, freed_stream := false, freed_context := false,
    freed_stub := false, freed_name := false, freed_last_result := false,
    freed_key_path := false, freed_language_code := false,
    freed_model := false, freed_channel := false, freed_struct := false }

/-- `google_recog_destroy` transcribed: when a stream is open, perform the
blocking `Finish` and delete the stream; delete the context and the stub
when present; then `ast_free` the name, last result, key path and language
code strings and the struct itself, and clear `speech->data`.  The model
string and the stored channel reference are not freed anywhere in the
function. -/
def google_recog_destroy (sp : Speech) : Int × Speech × DestroyEffects :=
  match sp.data with
  | none => (0, sp, noEffects)
  | some gs =>
    (0, { sp with data := none },
     { finished_stream := gs.stream,
       freed_stream := gs.stream,
       freed_context := gs.context,
       freed_stub := gs.speech_stub,
       freed_name := true,
       freed_last_result := true,
       freed_key_path := true,
       freed_language_code := true,
       freed_model := false,
       freed_channel := false,
       freed_struct := true })

/-- `google_recog_dtmf`: logged only, returns ok whether or not the engine
data is present. -/
def google_recog_dtmf (sp : Speech) (_digits : String) : Int :=
  match sp.data with
  | none => 0
  | some _ => 0

/-- `google_recog_load_grammar`: no-op shim, ok unless the data is NULL. -/
def google_recog_load_grammar (sp : Speech) (_gname _gpath : String) : Int :=
  match sp.data with
  | none => -1
  | some _ => 0

/-- `google_recog_unload_grammar`: no-op shim, ok unless the data is NULL. -/
def google_recog_unload_grammar (sp : Speech) (_gname : String) : Int :=
  match sp.data with
  | none => -1
  | some _ => 0

/-- `google_recog_activate_grammar`: no-op shim, ok unless the data is
NULL. -/
def google_recog_activate_grammar (sp : Speech) (_gname : String) : Int :=
  match sp.data with
  | none => -1
  | some _ => 0

/-- `google_recog_deactivate_grammar`: no-op shim, ok unless the data is
NULL. -/
def google_recog_deactivate_grammar (sp : Speech) (_gname : String) : Int :=
  match sp.data with
  | none => -1
  | some _ => 0

/-- `google_recog_change`: placeholder that logs and returns 0 (success)
whenever the engine data is present. -/
def google_recog_change (sp : Speech) (_sname _svalue : String) : Int :=
  match sp.data with
  | none => -1
  | some _ => 0

/-- `google_recog_get_settings`: always reports the setting as not found
(-1), also when the engine data is present. -/
def google_recog_get_settings (sp : Speech) (_sname : String) : Int :=
  match sp.data with
  | none => -1
  | some _ => -1

/-- `google_recog_change_results_type`: placeholder returning -1, also when
the engine data is present. -/
def google_recog_change_results_type (sp : Speech) (_rtype : Int) : Int :=
  match sp.data with
  | none => -1
  | some _ => -1

/-- A fully populated session, with the field values `google_recog_create`
installs from the built-in defaults, used to instantiate the theorems at
concrete inputs. -/
def gsBase : GoogleSpeechData :=
  { name := some "google",
    speech_stub := true,
    context := true,
    stream := true,
    last_result := none,
    service_account_key_path := none,
    language_code := some "en-US",
    sample_rate_hertz := 16000,
    model := some "default",
    enable_automatic_punctuation := false,
    channel_ptr := true }

/-- A session in the streaming state with an open stream. -/
def spReady : Speech := { data := some gsBase, state := SpeechState.ready }

/-- Session data holding a buffered, not yet consumed transcript. -/
def gsC1 : GoogleSpeechData := { gsBase with last_result := some "hello world" }

/-- A session whose result slot holds a buffered transcript. -/
def spC1 : Speech := { data := some gsC1, state := SpeechState.ready }

/-- Session data about to be destroyed, holding every owned string. -/
def gsC4 : GoogleSpeechData := { gsBase with last_result := some "goodbye" }

/-- A stopped session about to be destroyed. -/
def spC4 : Speech := { data := some gsC4, state := SpeechState.notReady }

/-- Session data with a non-default model and no stream opened yet. -/
def gsC5 : GoogleSpeechData :=
  { gsBase with model := some "phone_call", stream := false }

/-- A created-but-not-started session with a non-default model. -/
def spC5 : Speech := { data := some gsC5, state := SpeechState.notReady }

/-- An inbound response whose single final result carries an upstream
confidence of 91. -/
def respFinal : StreamingResponse :=
  { results :=
      [{ alternatives := [{ transcript := "hello world", confidence := some 91 }],
         is_final := true,
         stability := 0 }] }

/-- An inbound response with an empty result batch. -/
def respEmpty : StreamingResponse := { results := [] }

/-- An inbound response whose first result entry has no alternatives. -/
def respNoAlt : StreamingResponse :=
  { results := [{ alternatives := [], is_final := false, stability := 0 }] }

/-- A speech object whose engine data pointer is NULL. -/
def spNull : Speech := { data := none, state := SpeechState.notReady }

/-- Claim C1: when the result slot holds a buffered transcript, a call to
`google_recog_get` returns that transcript with the slot cleared, so an
immediately following second call returns no result; when the slot is
empty in the `ast_strlen_zero` sense, the call returns no result and
leaves the session unchanged. -/
theorem google_recog_get_transfers_once
    (sp : Speech) (gs : GoogleSpeechData) (t : String) (al : Bool)
    (hdata : sp.data = some gs) :
    (gs.last_result = some t → t ≠ "" →
      google_recog_get sp true =
        (some { text := t, score := 100 },
         { sp with data := some { gs with last_result := none } }) ∧
      (google_recog_get
        { sp with data := some { gs with last_result := none } } al).1
        = none) ∧
    (ast_strlen_zero gs.last_result = true →
      google_recog_get sp al = (none, sp)) := by
  constructor
  · intro hslot ht
    constructor
    · simp [google_recog_get, hdata, hslot, ht]
    · simp [google_recog_get]
  · intro hz
    cases hsl : gs.last_result with
    | none => simp [google_recog_get, hdata, hsl]
    | some s =>
      have hs : s = "" := by simpa [ast_strlen_zero, hsl] using hz
      simp [google_recog_get, hdata, hsl, hs]

/-- Witness for claim C1 at a session buffering the transcript
"hello world". -/
theorem google_recog_get_transfers_once_witness :
    (gsC1.last_result = some "hello world" → "hello world" ≠ "" →
      google_recog_get spC1 true =
        (some { text := "hello world", score := 100 },
         { spC1 with data := some { gsC1 with last_result := none } }) ∧
      (google_recog_get
        { spC1 with data := some { gsC1 with last_result := none } } true).1
        = none) ∧
    (ast_strlen_zero gsC1.last_result = true →
      google_recog_get spC1 true = (none, spC1)) :=
  google_recog_get_transfers_once spC1 gsC1 "hello world" true rfl

/-- Claim C9: when the allocation of the caller-facing result fails,
`google_recog_get` returns no result and leaves the buffered transcript
unconsumed, so a later call can still retrieve it. -/
theorem google_recog_get_alloc_fail_keeps_slot
    (sp : Speech) (gs : GoogleSpeechData) (t : String)
    (hdata : sp.data = some gs) (hslot : gs.last_result = some t)
    (ht : t ≠ "") :
    google_recog_get sp false = (none, sp) ∧
    (google_recog_get (google_recog_get sp false).2 true).1
      = some { text := t, score := 100 } := by
  have h1 : google_recog_get sp false = (none, sp) := by
    simp [google_recog_get, hdata, hslot, ht]
  refine ⟨h1, ?_⟩
  rw [h1]
  simp [google_recog_get, hdata, hslot, ht]

/-- Witness for claim C9 at a session buffering the transcript
"hello world". -/
theorem google_recog_get_alloc_fail_keeps_slot_witness :
    gsC1.last_result = some "hello world" ∧
    (google_recog_get spC1 false = (none, spC1) ∧
     (google_recog_get (google_recog_get spC1 false).2 true).1
       = some { text := "hello world", score := 100 }) :=
  ⟨rfl, google_recog_get_alloc_fail_keeps_slot spC1 gsC1 "hello world"
    rfl rfl (by decide)⟩

/-- Claim C3 counterexample: the upstream alternative carries confidence
91, yet the result a subsequent `google_recog_get` returns scores the
fixed placeholder 100, not 91. -/
theorem google_recog_score_ignores_upstream :
    ((respFinal.results.headD
        { alternatives := [], is_final := false, stability := 0 }).alternatives.headD
      { transcript := "", confidence := none }).confidence = some 91 ∧
    (google_recog_get
      (google_recog_write spReady [1, 2]
        { writeOk := true, readResp := some respFinal }).2.1 true).1
      = some { text := "hello world", score := 100 } ∧
    (100 : Int) ≠ 91 := by decide

/-- Claim C3 amended: every result `google_recog_get` returns carries the
fixed placeholder score 100; the upstream confidence is never propagated
into it. -/
theorem google_recog_score_placeholder
    (sp : Speech) (allocOk : Bool) (res : SpeechResult) (sp2 : Speech)
    (h : google_recog_get sp allocOk = (some res, sp2)) :
    res.score = 100 := by
  unfold google_recog_get at h
  split at h
  · injection h with h1 h2
    exact absurd h1 (by simp)
  · split at h
    · injection h with h1 h2
      exact absurd h1 (by simp)
    · split at h
      · injection h with h1 h2
        exact absurd h1 (by simp)
      · split at h
        · injection h with h1 h2
          injection h1 with h1
          rw [← h1]
        · injection h with h1 h2
          exact absurd h1 (by simp)

/-- Witness for the amended claim C3 at a session buffering the
transcript "hello world". -/
theorem google_recog_score_placeholder_witness :
    google_recog_get spC1 true =
      (some { text := "hello world", score := 100 },
       { spC1 with data := some { gsC1 with last_result := none } }) ∧
    ({ text := "hello world", score := 100 } : SpeechResult).score = 100 :=
  ⟨by decide,
   google_recog_score_placeholder spC1 true
     { text := "hello world", score := 100 }
     { spC1 with data := some { gsC1 with last_result := none } }
     (by decide)⟩

/-- Claim C2: in the streaming state, a `google_recog_write` whose outbound
frame write fails moves the session to NOT_READY and reports failure,
while a write that succeeds but whose read reports the stream has ended
returns success and stores no new result. -/
theorem google_recog_write_fail_vs_stream_end
    (sp : Speech) (gs : GoogleSpeechData) (audio : List Int)
    (resp : Option StreamingResponse)
    (hdata : sp.data = some gs) (hstream : gs.stream = true)
    (hstate : sp.state = SpeechState.ready) :
    ((google_recog_write sp audio { writeOk := false, readResp := resp }).1
        = -1 ∧
     (google_recog_write sp audio
        { writeOk := false, readResp := resp }).2.1.state
        = SpeechState.notReady ∧
     (google_recog_write sp audio
        { writeOk := false, readResp := resp }).2.1.state
        ≠ sp.state) ∧
    google_recog_write sp audio { writeOk := true, readResp := none }
      = (0, sp, [StreamFrame.audioFrame audio]) := by
  refine ⟨⟨?_, ?_, ?_⟩, ?_⟩
  · simp [google_recog_write, hdata, hstream]
  · simp [google_recog_write, hdata, hstream]
  · simp [google_recog_write, hdata, hstream, hstate]
  · simp [google_recog_write, hdata, hstream]

/-- Witness for claim C2 at a streaming session with an open stream. -/
theorem google_recog_write_fail_vs_stream_end_witness :
    ((google_recog_write spReady [7] { writeOk := false, readResp := none }).1
        = -1 ∧
     (google_recog_write spReady [7]
        { writeOk := false, readResp := none }).2.1.state
        = SpeechState.notReady ∧
     (google_recog_write spReady [7]
        { writeOk := false, readResp := none }).2.1.state
        ≠ spReady.state) ∧
    google_recog_write spReady [7] { writeOk := true, readResp := none }
      = (0, spReady, [StreamFrame.audioFrame [7]]) :=
  google_recog_write_fail_vs_stream_end spReady gsBase [7] none rfl rfl rfl

/-- Claim C8: a `google_recog_write` whose write succeeds and whose read
delivers a batch with zero result entries, or a first entry with zero
alternatives, leaves the session (result buffer and lifecycle state)
unchanged and returns success. -/
theorem google_recog_write_empty_batch
    (sp : Speech) (gs : GoogleSpeechData) (audio : List Int)
    (resp : StreamingResponse)
    (hdata : sp.data = some gs) (hstream : gs.stream = true)
    (hempty : resp.results = [] ∨
      ∃ r rs, resp.results = r :: rs ∧ r.alternatives = []) :
    google_recog_write sp audio { writeOk := true, readResp := some resp }
      = (0, sp, [StreamFrame.audioFrame audio]) := by
  rcases hempty with h | ⟨r, rs, hr, halt⟩
  · simp [google_recog_write, hdata, hstream, h]
  · simp [google_recog_write, hdata, hstream, hr, halt]

/-- Witness for claim C8 at a streaming session receiving an empty batch
and a batch whose first entry has no alternatives. -/
theorem google_recog_write_empty_batch_witness :
    respNoAlt.results
      = [{ alternatives := [], is_final := false, stability := 0 }] ∧
    google_recog_write spReady [7] { writeOk := true, readResp := some respEmpty }
      = (0, spReady, [StreamFrame.audioFrame [7]]) ∧
    google_recog_write spReady [7] { writeOk := true, readResp := some respNoAlt }
      = (0, spReady, [StreamFrame.audioFrame [7]]) :=
  ⟨rfl,
   google_recog_write_empty_batch spReady gsBase [7] respEmpty rfl rfl
     (Or.inl rfl),
   google_recog_write_empty_batch spReady gsBase [7] respNoAlt rfl rfl
     (Or.inr ⟨{ alternatives := [], is_final := false, stability := 0 }, [],
       rfl, rfl⟩)⟩

/-- Claim C4: at a session holding all its owned strings and an open
stream, `google_recog_destroy` performs the blocking Finish, frees the
stream, context, stub, name, last result, key path and language code and
clears the data pointer, but the model string and the stored channel
reference are never freed, so owned allocations survive destroy. -/
theorem google_recog_destroy_leaks_model :
    gsC4.model = some "default" ∧ gsC4.channel_ptr = true ∧
    google_recog_destroy spC4 =
      (0, { spC4 with data := none },
       { finished_stream := true, freed_stream := true, freed_context := true,
         freed_stub := true, freed_name := true, freed_last_result := true,
         freed_key_path := true, freed_language_code := true,
         freed_model := false, freed_channel := false,
         freed_struct := true }) := by
  decide

/-- Claim C5: a successful `google_recog_start` writes exactly one frame,
the configuration frame, carrying LINEAR16 encoding, the session sample
rate, language code and punctuation flag with interim results enabled;
the model field is included iff the session model is non-empty and
differs from the literal "default" sentinel. -/
theorem google_recog_start_sends_one_config
    (sp : Speech) (gs : GoogleSpeechData) (m : String) (env : StartEnv)
    (hdata : sp.data = some gs) (hstub : gs.speech_stub = true)
    (hctx : gs.context = true) (hso : env.streamOk = true)
    (hcw : env.configWriteOk = true) :
    google_recog_start sp env =
      (0,
       { sp with
         data := some { gs with stream := true },
         state := SpeechState.ready },
       [StreamFrame.configFrame
         { config :=
             { encoding := AudioEncoding.linear16,
               sample_rate_hertz := gs.sample_rate_hertz,
               language_code := gs.language_code,
               model := modelFieldOf gs.model,
               enable_automatic_punctuation :=
                 gs.enable_automatic_punctuation },
           interim_results := true }]) ∧
    (gs.model = none → modelFieldOf gs.model = none) ∧
    (gs.model = some m →
      ((m ≠ "" ∧ m ≠ "default") → modelFieldOf gs.model = some m) ∧
      ((m = "" ∨ m = "default") → modelFieldOf gs.model = none)) := by
  refine ⟨?_, ?_, ?_⟩
  · simp [google_recog_start, hdata, hstub, hctx, hso, hcw]
  · intro h
    simp [modelFieldOf, h]
  · intro h
    constructor
    · intro hm
      simp [modelFieldOf, h, hm.1, hm.2]
    · intro hm
      rcases hm with hm | hm <;> simp [modelFieldOf, h, hm]

/-- Witness for claim C5 at a created session whose model is the
non-default "phone_call". -/
theorem google_recog_start_sends_one_config_witness :
    google_recog_start spC5 { streamOk := true, configWriteOk := true } =
      (0,
       { spC5 with
         data := some { gsC5 with stream := true },
         state := SpeechState.ready },
       [StreamFrame.configFrame
         { config :=
             { encoding := AudioEncoding.linear16,
               sample_rate_hertz := gsC5.sample_rate_hertz,
               language_code := gsC5.language_code,
               model := modelFieldOf gsC5.model,
               enable_automatic_punctuation :=
                 gsC5.enable_automatic_punctuation },
           interim_results := true }]) ∧
    (gsC5.model = none → modelFieldOf gsC5.model = none) ∧
    (gsC5.model = some "phone_call" →
      (("phone_call" ≠ "" ∧ "phone_call" ≠ "default") →
        modelFieldOf gsC5.model = some "phone_call") ∧
      (("phone_call" = "" ∨ "phone_call" = "default") →
        modelFieldOf gsC5.model = none)) :=
  google_recog_start_sends_one_config spC5 gsC5 "phone_call"
    { streamOk := true, configWriteOk := true } rfl rfl rfl rfl rfl

/-- Helper: along any sequence of consecutive `google_recog_stop` calls on
a session with engine data, every call returns 0, the data pointer is
untouched, and a non-empty sequence ends in the NOT_READY state. -/
theorem stopMany_spec (gs : GoogleSpeechData) (envs : List Bool) :
    ∀ sp : Speech, sp.data = some gs →
      (stopMany sp envs).1 = List.replicate envs.length 0 ∧
      (stopMany sp envs).2.data = sp.data ∧
      (envs ≠ [] → (stopMany sp envs).2.state = SpeechState.notReady) := by
  induction envs with
  | nil =>
    intro sp hdata
    simp [stopMany]
  | cons e es ih =>
    intro sp hdata
    have hstep : google_recog_stop sp e
        = (0, { sp with state := SpeechState.notReady }) := by
      simp [google_recog_stop, hdata]
    obtain ⟨ih1, ihd, ihs⟩ :=
      ih { sp with state := SpeechState.notReady } (by simpa using hdata)
    refine ⟨?_, ?_, ?_⟩
    · simp [stopMany, hstep, ih1, List.replicate_succ]
    · simp [stopMany, hstep, ihd]
    · intro _
      cases es with
      | nil => simp [stopMany, hstep]
      | cons e2 es2 =>
        simp only [stopMany, hstep]
        exact ihs (by simp)

/-- Claim C6: any number of consecutive `google_recog_stop` calls each
return success, whatever the half-close outcomes are, and leave the
session in the NOT_READY state, out of the streaming state, with the
engine data untouched. -/
theorem google_recog_stop_always_ok
    (sp : Speech) (gs : GoogleSpeechData) (envs : List Bool)
    (hdata : sp.data = some gs) (hne : envs ≠ []) :
    (stopMany sp envs).1 = List.replicate envs.length 0 ∧
    (stopMany sp envs).2.state = SpeechState.notReady ∧
    (stopMany sp envs).2.state ≠ SpeechState.ready ∧
    (stopMany sp envs).2.data = sp.data := by
  obtain ⟨h1, h2, h3⟩ := stopMany_spec gs envs sp hdata
  exact ⟨h1, h3 hne, by simp [h3 hne], h2⟩

/-- Witness for claim C6: two consecutive stop calls on a streaming
session, the first with a failing half-close. -/
theorem google_recog_stop_always_ok_witness :
    (stopMany spReady [false, true]).1 = List.replicate 2 0 ∧
    (stopMany spReady [false, true]).2.state = SpeechState.notReady ∧
    (stopMany spReady [false, true]).2.state ≠ SpeechState.ready ∧
    (stopMany spReady [false, true]).2.data = spReady.data :=
  google_recog_stop_always_ok spReady gsBase [false, true] rfl (by decide)

/-- Claim C7 counterexample: on a session with valid data the change call
returns 0, the success code, not an unsupported failure. -/
theorem google_recog_change_succeeds :
    google_recog_change spReady "language" "fr-FR" = 0 ∧
    (0 : Int) ≠ -1 := by decide

/-- Claim C7 amended: with valid data, getSettings and changeResultsType
return the unsupported failure code -1, while change is accepted as a
no-op placeholder returning success 0. -/
theorem google_recog_settings_calls
    (sp : Speech) (gs : GoogleSpeechData) (sname svalue : String)
    (rtype : Int) (hdata : sp.data = some gs) :
    google_recog_change sp sname svalue = 0 ∧
    google_recog_get_settings sp sname = -1 ∧
    google_recog_change_results_type sp rtype = -1 := by
  simp [google_recog_change, google_recog_get_settings,
    google_recog_change_results_type, hdata]

/-- Witness for the amended claim C7 at a valid streaming session. -/
theorem google_recog_settings_calls_witness :
    google_recog_change spReady "language" "fr-FR" = 0 ∧
    google_recog_get_settings spReady "language" = -1 ∧
    google_recog_change_results_type spReady 1 = -1 :=
  google_recog_settings_calls spReady gsBase "language" "fr-FR" 1 rfl

/-- Claim C10: when the engine data pointer is NULL, every public
operation returns without touching it: destroy, stop and dtmf report
success, write, start, the grammar shims and the settings calls report
failure, and get reports no result, all leaving the object unchanged. -/
theorem google_recog_null_data_safe
    (sp : Speech) (hnull : sp.data = none)
    (audio : List Int) (wenv : WriteEnv) (senv : StartEnv) (e al : Bool)
    (d g gp n v : String) (rt : Int) :
    google_recog_destroy sp = (0, sp, noEffects) ∧
    google_recog_stop sp e = (0, sp) ∧
    google_recog_dtmf sp d = 0 ∧
    google_recog_write sp audio wenv = (-1, sp, []) ∧
    google_recog_start sp senv = (-1, sp, []) ∧
    google_recog_load_grammar sp g gp = -1 ∧
    google_recog_unload_grammar sp g = -1 ∧
    google_recog_activate_grammar sp g = -1 ∧
    google_recog_deactivate_grammar sp g = -1 ∧
    google_recog_change sp n v = -1 ∧
    google_recog_get_settings sp n = -1 ∧
    google_recog_change_results_type sp rt = -1 ∧
    google_recog_get sp al = (none, sp) := by
  refine ⟨?_, ?_, ?_, ?_, ?_, ?_, ?_, ?_, ?_, ?_, ?_, ?_, ?_⟩ <;>
    simp [google_recog_destroy, google_recog_stop, google_recog_dtmf,
      google_recog_write, google_recog_start, google_recog_load_grammar,
      google_recog_unload_grammar, google_recog_activate_grammar,
      google_recog_deactivate_grammar, google_recog_change,
      google_recog_get_settings, google_recog_change_results_type,
      google_recog_get, hnull]

/-- Witness for claim C10 at a speech object with a NULL data pointer. -/
theorem google_recog_null_data_safe_witness :
    google_recog_destroy spNull = (0, spNull, noEffects) ∧
    google_recog_stop spNull true = (0, spNull) ∧
    google_recog_dtmf spNull "1" = 0 ∧
    google_recog_write spNull [7] { writeOk := true, readResp := none }
      = (-1, spNull, []) ∧
    google_recog_start spNull { streamOk := true, configWriteOk := true }
      = (-1, spNull, []) ∧
    google_recog_load_grammar spNull "g" "p" = -1 ∧
    google_recog_unload_grammar spNull "g" = -1 ∧
    google_recog_activate_grammar spNull "g" = -1 ∧
    google_recog_deactivate_grammar spNull "g" = -1 ∧
    google_recog_change spNull "n" "v" = -1 ∧
    google_recog_get_settings spNull "n" = -1 ∧
    google_recog_change_results_type spNull 1 = -1 ∧
    google_recog_get spNull true = (none, spNull) :=
  google_recog_null_data_safe spNull rfl [7]
    { writeOk := true, readResp := none }
    { streamOk := true, configWriteOk := true } true true "1" "g" "p" "n" "v" 1
